import Mathlib

/-
Verification development for the CUDA batched Sobel filter
(src/cudasobel.cpp).

The kernel `applySobelFilters` is embedded as pure functions on `Nat`/`Int`:
device buffers become functions `Nat → Nat` (flat index to 8-bit sample),
shared memory becomes an explicit tile state, and the per-thread computation
becomes `outputPixel`.  All C arithmetic on `int` stays exact here: every
intermediate value is bounded well below 2^31 (see the accumulator-bound
theorem), and the `float` cast of a tile sample is exact since all products
of a sample in [0,255] with a coefficient in [-2,2] are integers below 2^24.
-/

namespace CudaSobel

/-- Source line 13: `const int sobel_width = 3;`. -/
def sobel_width : Nat := 3

/-- Source line 21: the x-direction kernel
`{{-1, 0, 1}, {-2, 0, 2}, {-1, 0, 1}}` copied into `c_sobel_x`.
Out-of-range indices (never used by the kernel) default to 0. -/
def c_sobel_x : Nat → Nat → Int
  | 0, 0 => -1 | 0, 1 => 0 | 0, 2 => 1
  | 1, 0 => -2 | 1, 1 => 0 | 1, 2 => 2
  | 2, 0 => -1 | 2, 1 => 0 | 2, 2 => 1
  | _, _ => 0

/-- Source line 22: the y-direction kernel
`{{-1, -2, -1}, {0, 0, 0}, {1, 2, 1}}` copied into `c_sobel_y`. -/
def c_sobel_y : Nat → Nat → Int
  | 0, 0 => -1 | 0, 1 => -2 | 0, 2 => -1
  | 1, 0 => 0  | 1, 1 => 0  | 1, 2 => 0
  | 2, 0 => 1  | 2, 1 => 2  | 2, 2 => 1
  | _, _ => 0

/-- Source lines 56-58 / 62-64: the border clamp applied to a tile
coordinate, e.g. `if (crtY < 0) crtY = 0; else if (crtY >= blockDim.y)
crtY = blockDim.y - 1;`.  `v` is the signed offset coordinate, `dim` the
block dimension along that axis. -/
def clampTile (v : Int) (dim : Nat) : Nat :=
  if v < 0 then 0
  else if (dim : Int) ≤ v then dim - 1
  else v.toNat

/-- The loop offsets `-r, ..., r` of the two nested loops at source
lines 54 and 60 (`for (int i = -r; i <= r; ++i)`). -/
def offsets (r : Nat) : List Int :=
  (List.range (2 * r + 1)).map fun k => (k : Int) - (r : Int)

/-- Source lines 45 and 66: the flat shared-memory index
`threadIdx.z * blockDim.x * blockDim.y + crtY * blockDim.x + crtX`. -/
def tileIndex (bdx bdy tz cy cx : Nat) : Nat :=
  tz * bdx * bdy + cy * bdx + cx

/-- Source lines 50-70 of `applySobelFilters`: the two accumulators
`sum_x` and `sum_y` after both loops, for the thread at tile position
`(tx, ty, tz)` in a block of dimensions `(bdx, bdy, ·)`, reading the
shared-memory tile `tile`.  Note the transposed constant-memory access
`c_sobel_x[r + j][r + i]` of lines 67-68, reproduced exactly.
The C `int` accumulation and the intermediate `float` cast are exact at
these magnitudes, so `Int` arithmetic is a faithful model. -/
def sumPair (bdx bdy : Nat) (tile : Nat → Nat) (tx ty tz kw : Nat) : Int × Int :=
  let r := (kw - 1) / 2
  (offsets r).foldl
    (fun acc i =>
      let crtY := clampTile ((ty : Int) + i) bdy
      (offsets r).foldl
        (fun acc2 j =>
          let crtX := clampTile ((tx : Int) + j) bdx
          let inputPix : Int := tile (tileIndex bdx bdy tz crtY crtX)
          (acc2.1 + inputPix * c_sobel_x ((r : Int) + j).toNat ((r : Int) + i).toNat,
           acc2.2 + inputPix * c_sobel_y ((r : Int) + j).toNat ((r : Int) + i).toNat))
        acc)
    ((0 : Int), (0 : Int))

/-- Source line 72: `d_output[...] = (uchar)(abs(sum_x) + abs(sum_y));`.
The C cast of a nonnegative `int` to `uchar` keeps the low 8 bits,
i.e. reduces the value modulo 256. -/
def outputPixel (bdx bdy : Nat) (tile : Nat → Nat) (tx ty tz kw : Nat) : Nat :=
  let s := sumPair bdx bdy tile tx ty tz kw
  (s.1.natAbs + s.2.natAbs) % 256

/-- Source lines 44-48: the contents of the dynamic shared-memory tile
`s_input2` after every in-range thread of the block `(Bx, By)` has executed
`s_input2[crtShareIndex] = d_input[crtGlobalIndex]` (i.e. the state the
barrier at line 48 is meant to make visible).  A slot keeps its prior,
unspecified contents `sInit` when the thread that owns it is out of range
(`x ≥ width` or `y ≥ height`) and therefore never executes the load. -/
def tileAfterLoad (w h bdx bdy bdz Bx By : Nat)
    (sInit : Nat → Nat) (input : Nat → Nat) : Nat → Nat :=
  fun idx =>
    let tz := idx / (bdx * bdy)
    let rem := idx % (bdx * bdy)
    let ty := rem / bdx
    let tx := rem % bdx
    let x := Bx * bdx + tx
    let y := By * bdy + ty
    if tz < bdz ∧ x < w ∧ y < h then input (tz * w * h + y * w + x)
    else sInit idx

/-- Source line 98: `gridDimHist = (ceil((float)cols/16), ceil((float)rows/16), 1)`;
the float ceiling is exact for any realistic image extent. -/
def gridDimX (w bdx : Nat) : Nat := (w + bdx - 1) / bdx

/-- Source lines 42-48: a thread performs its load, the barrier, and its
store exactly when `(x < width) && (y < height)` where
`x = blockIdx.x*blockDim.x + threadIdx.x` (line 38) and
`y = blockIdx.y*blockDim.y + threadIdx.y` (line 39). -/
def inRangeThread (w h bdx bdy Bx By tx ty : Nat) : Bool :=
  decide (Bx * bdx + tx < w) && decide (By * bdy + ty < h)

/-- Source line 48: `__syncthreads()` sits inside the range guard of
line 42, so a thread executes the barrier iff it is in range. -/
def executesBarrier (w h bdx bdy Bx By tx ty : Nat) : Bool :=
  inRangeThread w h bdx bdy Bx By tx ty

/-- Source line 47: the shared-memory load, inside the same guard. -/
def performsLoad (w h bdx bdy Bx By tx ty : Nat) : Bool :=
  inRangeThread w h bdx bdy Bx By tx ty

/-- Source line 72: the output store, inside the same guard. -/
def performsStore (w h bdx bdy Bx By tx ty : Nat) : Bool :=
  inRangeThread w h bdx bdy Bx By tx ty

/-- The value the kernel launch of source line 129 leaves at flat output
index `o` (`o = threadIdx.z*width*height + y*width + x`, line 72), with the
orchestrator's launch geometry `blockDim = (16, 16, batch_sz)` and
`gridDim = (ceil(w/16), ceil(h/16), 1)` of source lines 97-98.  The unique
writing thread of index `o` is recovered by decoding `o`; `sInit Bx By` is
the prior shared-memory contents of the block `(Bx, By)`. -/
def runSobel (w h bsz kw : Nat) (sInit : Nat → Nat → Nat → Nat)
    (input : Nat → Nat) (o : Nat) : Nat :=
  let b := o / (w * h)
  let rem := o % (w * h)
  let y := rem / w
  let x := rem % w
  let Bx := x / 16
  let tx := x % 16
  let By := y / 16
  let ty := y % 16
  outputPixel 16 16 (tileAfterLoad w h 16 16 bsz Bx By (sInit Bx By) input) tx ty b kw

/-- Follows the spec's words, for comparison with the source (claim C1):
`output[b,y,x] = clamp(|sum_x| + |sum_y|, 0, 255)` — identical to
`runSobel` except that the final 8-bit conversion saturates at 255
instead of truncating. -/
def specGradientOutput (w h bsz kw : Nat) (sInit : Nat → Nat → Nat → Nat)
    (input : Nat → Nat) (o : Nat) : Nat :=
  let b := o / (w * h)
  let rem := o % (w * h)
  let y := rem / w
  let x := rem % w
  let t := tileAfterLoad w h 16 16 bsz (x / 16) (y / 16) (sInit (x / 16) (y / 16)) input
  let s := sumPair 16 16 t (x % 16) (y % 16) b kw
  min (s.1.natAbs + s.2.natAbs) 255

/-- Follows the spec's words, for comparison with the source (claim C2):
the same convolution but with border clamping against the image's global
edge (`[0, w-1] × [0, h-1]`) instead of the tile's edge, reading `input`
directly.  The final conversion truncates like the source, so any output
difference is due to the border policy alone. -/
def imageClampPixel (w h kw : Nat) (input : Nat → Nat) (b y x : Nat) : Nat :=
  let r := (kw - 1) / 2
  let s := (offsets r).foldl
    (fun acc i =>
      let cy := clampTile ((y : Int) + i) h
      (offsets r).foldl
        (fun acc2 j =>
          let cx := clampTile ((x : Int) + j) w
          let pix : Int := input (b * w * h + cy * w + cx)
          (acc2.1 + pix * c_sobel_x ((r : Int) + i).toNat ((r : Int) + j).toNat,
           acc2.2 + pix * c_sobel_y ((r : Int) + i).toNat ((r : Int) + j).toNat))
        acc)
    ((0 : Int), (0 : Int))
  (s.1.natAbs + s.2.natAbs) % 256

/-- Follows the spec's orientation of the kernel lookup, for comparison
with the source (claim C9): identical to `sumPair` except that the
constant-memory access is the untransposed `[r + i][r + j]` (row offset
`i` selects the kernel row). -/
def sumPairUntransposed (bdx bdy : Nat) (tile : Nat → Nat) (tx ty tz kw : Nat) : Int × Int :=
  let r := (kw - 1) / 2
  (offsets r).foldl
    (fun acc i =>
      let crtY := clampTile ((ty : Int) + i) bdy
      (offsets r).foldl
        (fun acc2 j =>
          let crtX := clampTile ((tx : Int) + j) bdx
          let inputPix : Int := tile (tileIndex bdx bdy tz crtY crtX)
          (acc2.1 + inputPix * c_sobel_x ((r : Int) + i).toNat ((r : Int) + j).toNat,
           acc2.2 + inputPix * c_sobel_y ((r : Int) + i).toNat ((r : Int) + j).toNat))
        acc)
    ((0 : Int), (0 : Int))

/-- The spec's error taxonomy (spec §7); the source itself has no typed
error path at the gradient stage, which is what claim C6 is about. -/
inductive PipelineError where
  | allocationError
  | transferError
  | launchError
  | configurationError
deriving DecidableEq

/-- Source lines 121-130: the gradient stage of `sobelFilterCuda` —
`setSobelKernels()` followed immediately by the `applySobelFilters`
launch.  No validation of the kernel width exists between them or before
them, so the stage never produces an error value: it always dispatches. -/
def gradientStage (w h bsz kw : Nat) (sInit : Nat → Nat → Nat → Nat)
    (input : Nat → Nat) : Except PipelineError (Nat → Nat) :=
  Except.ok (runSobel w h bsz kw sInit input)

/-- Source line 129: the kernel width `sobelFilterCuda` passes to
`applySobelFilters` is always the constant `sobel_width`. -/
def sobelFilterKernelWidth : Nat := sobel_width

/-- A device-buffer lifecycle event of `sobelFilterCuda`; buffers are
numbered in allocation order: 0 = `d_input`, 1 = `d_inputBlurred`,
2 = `d_inputGrayscale`, 3 = `d_output` (source lines 87-90). -/
inductive BufEvent where
  | alloc : Nat → BufEvent
  | free : Nat → BufEvent
deriving DecidableEq, BEq

/-- The straight-line sequence of `SAFE_CALL`-guarded steps of
`sobelFilterCuda` (source lines 87-140), keeping only the buffer events:
four `cudaMalloc`s, then the input `cudaMemcpy` (93), the Gaussian-kernel
setup (107), the blur launch sync (113), the grayscale launch sync (118),
the two `cudaMemcpyToSymbol`s of `setSobelKernels` (23-24), the Sobel
launch sync (130), the output `cudaMemcpy` (134), then four `cudaFree`s. -/
def sobelCudaSteps : List (Option BufEvent) :=
  [some (BufEvent.alloc 0), some (BufEvent.alloc 1),
   some (BufEvent.alloc 2), some (BufEvent.alloc 3),
   none, none, none, none, none, none, none, none,
   some (BufEvent.free 0), some (BufEvent.free 1),
   some (BufEvent.free 2), some (BufEvent.free 3)]

/-- Modelled from the spec: the `SAFE_CALL` wrapper is declared outside
src/ (only its uses appear in `cudasobel.cpp`); per its fatal messages
("CUDA Malloc Failed", ...) it terminates the run at the first failing
call, executing nothing after it.  `fails k` says whether the `k`-th
`SAFE_CALL` of the run fails; the result is the list of buffer events
that actually execute. -/
def runSafeCalls : List (Option BufEvent) → (Nat → Bool) → Nat → List BufEvent
  | [], _, _ => []
  | step :: rest, fails, k =>
    if fails k then []
    else step.toList ++ runSafeCalls rest fails (k + 1)

/-- The buffer events executed by one call of `sobelFilterCuda` whose
`k`-th `SAFE_CALL` fails iff `fails k`. -/
def sobelFilterCudaEvents (fails : Nat → Bool) : List BufEvent :=
  runSafeCalls sobelCudaSteps fails 0

/-- The magnitude `|sum_x| + |sum_y|` the kernel computes for the output
coordinate `(x, y, b)`, before the 8-bit conversion of source line 72. -/
def magnitude (w h bsz : Nat) (sInit : Nat → Nat → Nat → Nat)
    (input : Nat → Nat) (x y b : Nat) : Nat :=
  let t := tileAfterLoad w h 16 16 bsz (x / 16) (y / 16) (sInit (x / 16) (y / 16)) input
  let s := sumPair 16 16 t (x % 16) (y % 16) b 3
  s.1.natAbs + s.2.natAbs

/-- The tile-local clamped neighborhood sample at offset `(i, j)` from the
thread at tile position `(tx, ty, tz)`, as read at source line 66. -/
def nbhd (bdx bdy : Nat) (tile : Nat → Nat) (tx ty tz : Nat) (i j : Int) : Int :=
  tile (tileIndex bdx bdy tz (clampTile ((ty : Int) + i) bdy) (clampTile ((tx : Int) + j) bdx))

/-- The x-direction Sobel response of a neighborhood, written out with the
coefficients of `h_sobel_x` in the spec's orientation (row offset selects
the kernel row). -/
def gradX (nb : Int → Int → Int) : Int :=
  -nb (-1) (-1) + nb (-1) 1 - 2 * nb 0 (-1) + 2 * nb 0 1 - nb 1 (-1) + nb 1 1

/-- The y-direction Sobel response of a neighborhood, written out with the
coefficients of `h_sobel_y` in the spec's orientation. -/
def gradY (nb : Int → Int → Int) : Int :=
  -nb (-1) (-1) - 2 * nb (-1) 0 - nb (-1) 1 + nb 1 (-1) + 2 * nb 1 0 + nb 1 1

/-- All-zero tile-initial-state for the concrete scenarios. -/
def zeroTileInit : Nat → Nat → Nat → Nat := fun _ _ _ => 0

/-- All-ones tile-initial-state: stands for arbitrary residue left in
shared memory by earlier launches. -/
def oneTileInit : Nat → Nat → Nat → Nat := fun _ _ _ => 1

/-- The all-zero input batch. -/
def zeroInput : Nat → Nat := fun _ => 0

/-- A 16-wide image with a vertical step edge: columns 8..15 hold 255,
columns 0..7 hold 0. -/
def edgeInput : Nat → Nat := fun o => if 8 ≤ o % 16 then 255 else 0

/-- A 32-wide image with a single bright column at x = 15. -/
def stripeInput : Nat → Nat := fun o => if o % 32 = 15 then 255 else 0

end CudaSobel

namespace CudaSobel

lemma offsets_one : offsets 1 = [-1, 0, 1] := by decide

lemma c_sobel_transpose (a b : Nat) : c_sobel_y a b = c_sobel_x b a := by
  rcases a with _ | _ | _ | a <;> rcases b with _ | _ | _ | b <;> rfl

lemma sumPair_eq3 (bdx bdy : Nat) (tile : Nat → Nat) (tx ty tz : Nat) :
    sumPair bdx bdy tile tx ty tz 3 =
      (gradY (nbhd bdx bdy tile tx ty tz), gradX (nbhd bdx bdy tile tx ty tz)) := by
  have h2 : Int.toNat 2 = 2 := rfl
  simp only [sumPair, gradX, gradY, nbhd]
  norm_num [offsets_one, List.foldl_cons, List.foldl_nil, c_sobel_x, c_sobel_y, h2]
  constructor <;> ring


lemma sumPairUntransposed_eq3 (bdx bdy : Nat) (tile : Nat → Nat) (tx ty tz : Nat) :
    sumPairUntransposed bdx bdy tile tx ty tz 3 =
      (gradX (nbhd bdx bdy tile tx ty tz), gradY (nbhd bdx bdy tile tx ty tz)) := by
  have h2 : Int.toNat 2 = 2 := rfl
  simp only [sumPairUntransposed, gradX, gradY, nbhd]
  norm_num [offsets_one, List.foldl_cons, List.foldl_nil, c_sobel_x, c_sobel_y, h2]
  constructor <;> ring

lemma flat_div {M : Nat} (b r : Nat) (hr : r < M) : (b * M + r) / M = b := by
  have hM : 0 < M := lt_of_le_of_lt (Nat.zero_le r) hr
  rw [Nat.add_comm, Nat.mul_comm b M, Nat.add_mul_div_left _ _ hM,
    Nat.div_eq_of_lt hr, Nat.zero_add]

lemma flat_mod {M : Nat} (b r : Nat) (hr : r < M) : (b * M + r) % M = r := by
  rw [Nat.add_comm, Nat.mul_comm b M, Nat.add_mul_mod_self_left, Nat.mod_eq_of_lt hr]

lemma row_lt {w h x y : Nat} (hx : x < w) (hy : y < h) : y * w + x < w * h := by
  have h1 : y * w + x < (y + 1) * w := by rw [Nat.succ_mul]; omega
  have h2 : (y + 1) * w ≤ h * w := Nat.mul_le_mul_right w hy
  rw [Nat.mul_comm w h]
  exact Nat.lt_of_lt_of_le h1 h2

lemma runSobel_decode (w h bsz kw : Nat) (sInit : Nat → Nat → Nat → Nat)
    (input : Nat → Nat) (x y b : Nat) (hx : x < w) (hy : y < h) :
    runSobel w h bsz kw sInit input (b * (w * h) + (y * w + x)) =
      outputPixel 16 16
        (tileAfterLoad w h 16 16 bsz (x / 16) (y / 16) (sInit (x / 16) (y / 16)) input)
        (x % 16) (y % 16) b kw := by
  have hr := row_lt hx hy
  simp only [runSobel]
  rw [flat_div b _ hr, flat_mod b _ hr, flat_div y x hx, flat_mod y x hx]


/-- Claim C1 (counterexample): at the 16 by 16 step-edge image the source
writes 252 at pixel (8, 8) — the truncated value 1020 mod 256 — while the
claimed formula clamp(|sum_x| + |sum_y|, 0, 255) gives 255. -/
theorem c1_clamp_counterexample :
    runSobel 16 16 1 3 zeroTileInit edgeInput 136 = 252 ∧
    specGradientOutput 16 16 1 3 zeroTileInit edgeInput 136 = 255 ∧
    runSobel 16 16 1 3 zeroTileInit edgeInput 136 ≠
      specGradientOutput 16 16 1 3 zeroTileInit edgeInput 136 := by
  decide

/-- Claim C1 (amended): for every in-range coordinate (x, y, b) the kernel
writes output[b,y,x] = (|sum_x| + |sum_y|) mod 256, where the sums are the
two 3x3 directional convolutions of the tile-local clamped neighborhood of
the staged tile (equal to the input at every slot loaded by an in-range
worker). -/
theorem c1_output_mod256 (w h bsz : Nat) (sInit : Nat → Nat → Nat → Nat)
    (input : Nat → Nat) (x y b : Nat) (hx : x < w) (hy : y < h) (hb : b < bsz) :
    runSobel w h bsz 3 sInit input (b * (w * h) + (y * w + x)) =
      ((gradX (nbhd 16 16 (tileAfterLoad w h 16 16 bsz (x / 16) (y / 16)
          (sInit (x / 16) (y / 16)) input) (x % 16) (y % 16) b)).natAbs +
       (gradY (nbhd 16 16 (tileAfterLoad w h 16 16 bsz (x / 16) (y / 16)
          (sInit (x / 16) (y / 16)) input) (x % 16) (y % 16) b)).natAbs) % 256 := by
  rw [runSobel_decode w h bsz 3 sInit input x y b hx hy]
  simp only [outputPixel, sumPair_eq3]
  rw [Nat.add_comm]

/-- Witness for the amended claim C1 at the step-edge image, pixel (8, 8). -/
theorem c1_output_mod256_witness :
    runSobel 16 16 1 3 zeroTileInit edgeInput (0 * (16 * 16) + (8 * 16 + 8)) =
      ((gradX (nbhd 16 16 (tileAfterLoad 16 16 16 16 1 (8 / 16) (8 / 16)
          (zeroTileInit (8 / 16) (8 / 16)) edgeInput) (8 % 16) (8 % 16) 0)).natAbs +
       (gradY (nbhd 16 16 (tileAfterLoad 16 16 16 16 1 (8 / 16) (8 / 16)
          (zeroTileInit (8 / 16) (8 / 16)) edgeInput) (8 % 16) (8 % 16) 0)).natAbs) % 256 :=
  c1_output_mod256 16 16 1 zeroTileInit edgeInput 8 8 0 (by decide) (by decide) (by decide)

/-- Claim C2: the border clamp of the convolution loops is tile-local —
an offset coordinate below 0 goes to 0, one at or beyond the block extent
goes to extent − 1, and in-range coordinates are untouched; and at a
concrete interior-tile-boundary pixel the result differs from what
image-global edge clamping would produce, showing the clamp is never
against the image's global edge. -/
theorem c2_tile_local_clamp (v : Int) (d : Nat) (hd : 1 ≤ d) :
    (v < 0 → clampTile v d = 0) ∧
    ((d : Int) ≤ v → clampTile v d = d - 1) ∧
    (0 ≤ v → v < (d : Int) → (clampTile v d : Int) = v) ∧
    clampTile v d < d ∧
    runSobel 32 16 1 3 zeroTileInit stripeInput 272 = 0 ∧
    imageClampPixel 32 16 3 stripeInput 0 8 16 = 252 ∧
    runSobel 32 16 1 3 zeroTileInit stripeInput 272 ≠
      imageClampPixel 32 16 3 stripeInput 0 8 16 := by
  refine ⟨?_, ?_, ?_, ?_, by decide, by decide, by decide⟩
  · intro hv; simp [clampTile, hv]
  · intro hv; simp [clampTile, hv]; omega
  · intro hv1 hv2; simp [clampTile]; omega
  · simp only [clampTile]; split_ifs <;> omega

/-- Witness for claim C2 at offset coordinate −5 in a 16-wide tile. -/
theorem c2_tile_local_clamp_witness :
    ((-5 : Int) < 0 → clampTile (-5) 16 = 0) ∧
    ((16 : Int) ≤ -5 → clampTile (-5) 16 = 16 - 1) ∧
    ((0 : Int) ≤ -5 → (-5 : Int) < (16 : Nat) → (clampTile (-5) 16 : Int) = -5) ∧
    clampTile (-5) 16 < 16 ∧
    runSobel 32 16 1 3 zeroTileInit stripeInput 272 = 0 ∧
    imageClampPixel 32 16 3 stripeInput 0 8 16 = 252 ∧
    runSobel 32 16 1 3 zeroTileInit stripeInput 272 ≠
      imageClampPixel 32 16 3 stripeInput 0 8 16 :=
  c2_tile_local_clamp (-5) 16 (by decide)

/-- Claim C3 (refuted, code bug): with width 17 the block at blockIdx.x = 1
has a single in-range column, and the pixel (16, 0) reads tile slots no
worker wrote; its output is whatever the prior shared-memory contents were
(0 for an all-zero residue, 4 for an all-one residue), so two runs on the
identical all-zero input need not be byte-identical. -/
theorem c3_unwritten_tile_dependence :
    runSobel 17 16 1 3 zeroTileInit zeroInput 16 = 0 ∧
    runSobel 17 16 1 3 oneTileInit zeroInput 16 = 4 ∧
    runSobel 17 16 1 3 zeroTileInit zeroInput 16 ≠
      runSobel 17 16 1 3 oneTileInit zeroInput 16 := by
  decide

/-- Claim C4 (refuted, code bug): with width 17, height 16, batch 1 and an
all-zero input, the pixel (16, 0) outputs 4 when the uninitialized tile
slots it reads happen to hold 1 — the all-zero-input/all-zero-output
property fails at ragged tile edges. -/
theorem c4_zero_input_nonzero_output :
    zeroInput 16 = 0 ∧
    runSobel 17 16 1 3 oneTileInit zeroInput 16 = 4 ∧
    (4 : Nat) ≠ 0 := by
  decide

/-- Claim C5 (refuted, code bug): the barrier of line 48 sits inside the
range guard of line 42, so with width 17 the out-of-range thread (1, 0) of
block (1, 0) — a thread that exists, since the grid has 2 blocks along x —
never executes the barrier, while its in-range sibling (0, 0) does; the
out-of-range thread indeed performs no load and no store. -/
theorem c5_divergent_barrier :
    gridDimX 17 16 = 2 ∧
    executesBarrier 17 16 16 16 1 0 1 0 = false ∧
    performsLoad 17 16 16 16 1 0 1 0 = false ∧
    performsStore 17 16 16 16 1 0 1 0 = false ∧
    executesBarrier 17 16 16 16 1 0 0 0 = true := by
  decide

/-- Claim C6 (counterexample): invoking the gradient stage with the even
kernel width 4 does not fail with a ConfigurationError — no validation
exists — and the dispatched kernel writes the device output (here pixel
(8, 8) of the step-edge image receives 252). -/
theorem c6_no_configuration_error :
    gradientStage 16 16 1 4 zeroTileInit edgeInput ≠
      Except.error PipelineError.configurationError ∧
    runSobel 16 16 1 4 zeroTileInit edgeInput 136 = 252 := by
  refine ⟨?_, by decide⟩
  simp [gradientStage]

/-- Claim C6 (amended): the gradient stage performs no kernel-width
validation and always dispatches; an even kernel width of 4 is processed
with radius (4 − 1) / 2 = 1, i.e. exactly as the width-3 kernel; and the
orchestrator only ever passes the constant width 3, which is odd. -/
theorem c6_even_width_dispatches (w h bsz : Nat) (sInit : Nat → Nat → Nat → Nat)
    (input : Nat → Nat) :
    gradientStage w h bsz 4 sInit input = Except.ok (runSobel w h bsz 3 sInit input) ∧
    sobelFilterKernelWidth = 3 ∧
    sobelFilterKernelWidth % 2 = 1 := by
  exact ⟨rfl, rfl, rfl⟩

/-- Claim C7 (counterexample): when the third buffer acquisition fails,
the two buffers already acquired are never released — the cleanup calls
sit at the end of the straight-line function and are not reached. -/
theorem c7_leak_on_failed_alloc :
    sobelFilterCudaEvents (fun k => decide (k = 2)) = [BufEvent.alloc 0, BufEvent.alloc 1] ∧
    (sobelFilterCudaEvents (fun k => decide (k = 2))).count (BufEvent.alloc 0) = 1 ∧
    (sobelFilterCudaEvents (fun k => decide (k = 2))).count (BufEvent.free 0) = 0 ∧
    (sobelFilterCudaEvents (fun k => decide (k = 2))).count (BufEvent.alloc 1) = 1 ∧
    (sobelFilterCudaEvents (fun k => decide (k = 2))).count (BufEvent.free 1) = 0 := by
  decide

/-- Claim C7 (amended): only on a fully successful run are the four device
buffers each allocated once and then released exactly once; on a failure
partway (e.g. at the third acquisition) execution stops and the buffers
already acquired are not released. -/
theorem c7_release_on_success_only (fails : Nat → Bool) (hs : ∀ k, fails k = false)
    (i : Nat) (hi : i < 4) :
    sobelFilterCudaEvents fails =
      [BufEvent.alloc 0, BufEvent.alloc 1, BufEvent.alloc 2, BufEvent.alloc 3,
       BufEvent.free 0, BufEvent.free 1, BufEvent.free 2, BufEvent.free 3] ∧
    (sobelFilterCudaEvents fails).count (BufEvent.alloc i) = 1 ∧
    (sobelFilterCudaEvents fails).count (BufEvent.free i) = 1 ∧
    sobelFilterCudaEvents (fun k => decide (k = 2)) = [BufEvent.alloc 0, BufEvent.alloc 1] := by
  have he : sobelFilterCudaEvents fails =
      [BufEvent.alloc 0, BufEvent.alloc 1, BufEvent.alloc 2, BufEvent.alloc 3,
       BufEvent.free 0, BufEvent.free 1, BufEvent.free 2, BufEvent.free 3] := by
    simp [sobelFilterCudaEvents, sobelCudaSteps, runSafeCalls, hs]
  refine ⟨he, ?_, ?_, by decide⟩ <;> rw [he] <;> interval_cases i <;> decide

/-- Witness for the amended claim C7: an all-successful run, buffer 0. -/
theorem c7_release_on_success_only_witness :
    sobelFilterCudaEvents (fun _ => false) =
      [BufEvent.alloc 0, BufEvent.alloc 1, BufEvent.alloc 2, BufEvent.alloc 3,
       BufEvent.free 0, BufEvent.free 1, BufEvent.free 2, BufEvent.free 3] ∧
    (sobelFilterCudaEvents (fun _ => false)).count (BufEvent.alloc 0) = 1 ∧
    (sobelFilterCudaEvents (fun _ => false)).count (BufEvent.free 0) = 1 ∧
    sobelFilterCudaEvents (fun k => decide (k = 2)) = [BufEvent.alloc 0, BufEvent.alloc 1] :=
  c7_release_on_success_only (fun _ => false) (fun _ => rfl) 0 (by decide)

/-- Claim C8: with 8-bit samples the two accumulators of the 3x3
convolution stay strictly inside the signed 16-bit range
(−2^15, 2^15), so the source's wider `int` accumulators never overflow. -/
theorem c8_accumulator_bounds (bdx bdy : Nat) (tile : Nat → Nat) (tx ty tz : Nat)
    (h : ∀ idx, tile idx ≤ 255) :
    -(2 ^ 15) < (sumPair bdx bdy tile tx ty tz 3).1 ∧
    (sumPair bdx bdy tile tx ty tz 3).1 < 2 ^ 15 ∧
    -(2 ^ 15) < (sumPair bdx bdy tile tx ty tz 3).2 ∧
    (sumPair bdx bdy tile tx ty tz 3).2 < 2 ^ 15 := by
  have hub : ∀ i j : Int, 0 ≤ nbhd bdx bdy tile tx ty tz i j ∧
      nbhd bdx bdy tile tx ty tz i j ≤ 255 := by
    intro i j
    unfold nbhd
    exact ⟨Int.natCast_nonneg _, by exact_mod_cast h _⟩
  have hA := hub (-1) (-1)
  have hB := hub (-1) 0
  have hC := hub (-1) 1
  have hD := hub 0 (-1)
  have hE := hub 0 1
  have hF := hub 1 (-1)
  have hG := hub 1 0
  have hH := hub 1 1
  have hp : ((2 : Int) ^ 15) = 32768 := by norm_num
  rw [sumPair_eq3]
  simp only [gradX, gradY, hp]
  refine ⟨?_, ?_, ?_, ?_⟩ <;> omega

/-- Witness for claim C8 on the all-255 tile. -/
theorem c8_accumulator_bounds_witness :
    -(2 ^ 15) < (sumPair 16 16 (fun _ => 255) 0 0 0 3).1 ∧
    (sumPair 16 16 (fun _ => 255) 0 0 0 3).1 < 2 ^ 15 ∧
    -(2 ^ 15) < (sumPair 16 16 (fun _ => 255) 0 0 0 3).2 ∧
    (sumPair 16 16 (fun _ => 255) 0 0 0 3).2 < 2 ^ 15 :=
  c8_accumulator_bounds 16 16 (fun _ => 255) 0 0 0 (fun _ => Nat.le_refl 255)

/-- Claim C9: the stored y kernel is the transpose of the stored x kernel;
the transposed constant-memory indexing [r+j][r+i] therefore just swaps
the two accumulators relative to untransposed indexing, and the final
|sum_x| + |sum_y| is unchanged for every tile and every thread. -/
theorem c9_transposed_indexing (bdx bdy : Nat) (tile : Nat → Nat) (tx ty tz : Nat) :
    (∀ a b : Nat, c_sobel_y a b = c_sobel_x b a) ∧
    (sumPair bdx bdy tile tx ty tz 3).1 = (sumPairUntransposed bdx bdy tile tx ty tz 3).2 ∧
    (sumPair bdx bdy tile tx ty tz 3).2 = (sumPairUntransposed bdx bdy tile tx ty tz 3).1 ∧
    (sumPair bdx bdy tile tx ty tz 3).1.natAbs + (sumPair bdx bdy tile tx ty tz 3).2.natAbs =
      (sumPairUntransposed bdx bdy tile tx ty tz 3).1.natAbs +
        (sumPairUntransposed bdx bdy tile tx ty tz 3).2.natAbs := by
  rw [sumPair_eq3, sumPairUntransposed_eq3]
  exact ⟨c_sobel_transpose, rfl, rfl, Nat.add_comm _ _⟩

/-- Claim C10: whenever |sum_x| + |sum_y| exceeds 255 the stored byte is
the magnitude reduced modulo 256 (the truncating uchar cast), which is
strictly below the true magnitude; it equals the saturated value 255 only
in the accidental case magnitude mod 256 = 255. -/
theorem c10_truncating_cast (w h bsz : Nat) (sInit : Nat → Nat → Nat → Nat)
    (input : Nat → Nat) (x y b : Nat) (hx : x < w) (hy : y < h) (hb : b < bsz)
    (hv : 255 < magnitude w h bsz sInit input x y b) :
    runSobel w h bsz 3 sInit input (b * (w * h) + (y * w + x)) =
      magnitude w h bsz sInit input x y b % 256 ∧
    magnitude w h bsz sInit input x y b % 256 < magnitude w h bsz sInit input x y b ∧
    (magnitude w h bsz sInit input x y b % 256 ≠ 255 →
      runSobel w h bsz 3 sInit input (b * (w * h) + (y * w + x)) ≠ 255) := by
  have h1 : runSobel w h bsz 3 sInit input (b * (w * h) + (y * w + x)) =
      magnitude w h bsz sInit input x y b % 256 := by
    rw [runSobel_decode w h bsz 3 sInit input x y b hx hy]
    rfl
  refine ⟨h1, by omega, ?_⟩
  intro hne
  rw [h1]
  exact hne

/-- Witness for claim C10 at the step-edge image, pixel (8, 8), where the
magnitude is 1020 and the stored byte is 1020 mod 256 = 252, not 255. -/
theorem c10_truncating_cast_witness :
    255 < magnitude 16 16 1 zeroTileInit edgeInput 8 8 0 ∧
    runSobel 16 16 1 3 zeroTileInit edgeInput (0 * (16 * 16) + (8 * 16 + 8)) =
      magnitude 16 16 1 zeroTileInit edgeInput 8 8 0 % 256 :=
  ⟨by decide,
   (c10_truncating_cast 16 16 1 zeroTileInit edgeInput 8 8 0 (by decide) (by decide)
      (by decide) (by decide)).1⟩

end CudaSobel
